import Mathlib

/-!
Verification of the go-debounce debouncing state machine.

The embedding models the Debouncer struct and its methods (NewDebouncer,
DebounceWith, Reset, the shared timer callback, invoke and invokeLeading)
from the repository sources: the Debouncer implementation in
src/unnamed/part_000 and the equivalent closure-based debounce function in
src/debounce.go, which share the same call-admission logic (invokeLeading
with exceededWait and exceededMaxWait, the trailing-guarded timer block,
the dirty-guarded timer callback, and Reset).

Modelling choices:
- Go time.Time is represented by an integer (nanoseconds); the zero Time
  value is represented by 0, and clock readings in well-formed runs are
  positive. time.Duration is an integer as well; Sub is integer
  subtraction. Overflow plays no role in any claim.
- A bound action (a Go func()) is represented by an identifier of type
  Nat; the nil function pointer is none. Invocation is modelled by the
  method returning the identifier of the dispatched action (none when
  nothing was dispatched), since the action itself is opaque to the core.
- The two time.Timer handles are represented by their armed status
  (a Bool each); Reset-with-duration arms, Stop disarms. Timer expiry is
  an external event that runs the shared callback; since every method
  holds the one mutex for its whole body, a run of the system is a
  sequence of atomic events (calls, timer firings, resets), which the
  step function below models.
-/

/-- Debouncer combines configuration (wait, leading, trailing, maxWait)
and state (fn, dirty, lastCall, lastInvoke and the armed status of the two
timers), mirroring the Go struct. -/
structure Debouncer where
  wait : Int
  leading : Bool
  trailing : Bool
  maxWait : Int
  fn : Option Nat
  dirty : Bool
  lastCall : Int
  lastInvoke : Int
  timer : Bool
  maxTimer : Bool
deriving Repr, DecidableEq

/-- Opt mirrors the Option functional-option type of the Go package
(options.go): WithLeading, WithTrailing, WithMaxWait. -/
inductive Opt where
  | withLeading
  | withTrailing
  | withMaxWait (maxWait : Int)
deriving Repr, DecidableEq

/-- applyOpt applies one functional option to the debouncer under
construction, as the option closures in options.go do. -/
def applyOpt (d : Debouncer) : Opt → Debouncer
  | .withLeading => { d with leading := true }
  | .withTrailing => { d with trailing := true }
  | .withMaxWait m => { d with maxWait := m }

/-- initD is the zero-valued Debouncer with the given wait, as created by
NewDebouncer before the options are applied. -/
def initD (wait : Int) : Debouncer :=
  { wait := wait, leading := false, trailing := false, maxWait := 0,
    fn := none, dirty := false, lastCall := 0, lastInvoke := 0,
    timer := false, maxTimer := false }

/-- defaultTrailing is the constructor statement that forces trailing on
when neither leading nor trailing was chosen. -/
def defaultTrailing (d : Debouncer) : Debouncer :=
  if !d.leading && !d.trailing then { d with trailing := true } else d

/-- disableMaxWait is the constructor statement that zeroes maxWait when it
is at most wait. -/
def disableMaxWait (d : Debouncer) : Debouncer :=
  if d.maxWait ≤ d.wait then { d with maxWait := 0 } else d

/-- storeFn is the nil-guarded function store used by the constructor and
by DebounceWith. -/
def storeFn (d : Debouncer) (f : Option Nat) : Debouncer :=
  if f.isSome then { d with fn := f } else d

/-- NewDebouncer embeds the Go constructor: apply the options, default to
trailing when neither edge is chosen, disable maxWait when it is at most
wait, store the function when non-nil, and create both timers stopped. -/
def NewDebouncer (wait : Int) (f : Option Nat) (opts : List Opt) : Debouncer :=
  storeFn (disableMaxWait (defaultTrailing (opts.foldl applyOpt (initD wait)))) f

/-- invoke embeds Debouncer.invoke: when a function is bound, record the
invocation time and dispatch it (the returned Option Nat is the dispatched
action); when none is bound, do nothing. -/
def Debouncer.invoke (d : Debouncer) (now : Int) : Debouncer × Option Nat :=
  if d.fn.isSome then ({ d with lastInvoke := now }, d.fn) else (d, none)

/-- exceededWait is the local condition of invokeLeading: last call time is
the zero value, or either elapsed duration is negative (clock anomaly), or
both the time since the last call and the time since the last invocation
reach wait. -/
def exceededWait (d : Debouncer) (now : Int) : Bool :=
  d.lastCall == 0 || decide (now - d.lastCall < 0) || decide (now - d.lastInvoke < 0) ||
    (decide (d.wait ≤ now - d.lastCall) && decide (d.wait ≤ now - d.lastInvoke))

/-- exceededMaxWait is the second local condition of invokeLeading: maxWait
is positive and the time since the last invocation reaches maxWait. -/
def exceededMaxWait (d : Debouncer) (now : Int) : Bool :=
  decide (0 < d.maxWait) && decide (d.maxWait ≤ now - d.lastInvoke)

/-- invokeLeading embeds Debouncer.invokeLeading: nothing when leading is
disabled; otherwise invoke immediately when exceededWait or exceededMaxWait
holds, reporting whether the leading edge fired. -/
def Debouncer.invokeLeading (d : Debouncer) (now : Int) : Debouncer × Option Nat × Bool :=
  if !d.leading then (d, none, false)
  else if exceededWait d now || exceededMaxWait d now then
    let r := d.invoke now
    (r.1, r.2, true)
  else (d, none, false)

/-- DebounceWith embeds Debouncer.DebounceWith: store a non-nil function,
invoke immediately when wait is nonpositive, otherwise try the leading
edge; when it did not fire and trailing is on, rearm the wait timer, arm
the max-wait timer at the start of a burst, and mark dirty; finally record
the call time. -/
def Debouncer.DebounceWith (d : Debouncer) (f : Option Nat) (now : Int) :
    Debouncer × Option Nat :=
  let d := storeFn d f
  if d.wait ≤ 0 then d.invoke now
  else
    let r := d.invokeLeading now
    let d1 := r.1
    let d2 :=
      if !r.2.2 && d1.trailing then
        { d1 with timer := true,
                  maxTimer := if decide (0 < d1.maxWait) && !d1.dirty then true
                              else d1.maxTimer,
                  dirty := true }
      else d1
    ({ d2 with lastCall := now }, r.2.1)

/-- timerCallback embeds the shared expiry handler of both timers: a no-op
when not dirty, otherwise invoke now, stop both timers and clear dirty. -/
def Debouncer.timerCallback (d : Debouncer) (now : Int) : Debouncer × Option Nat :=
  if !d.dirty then (d, none)
  else
    let r := d.invoke now
    ({ r.1 with timer := false, maxTimer := false, dirty := false }, r.2)

/-- Reset embeds Debouncer.Reset: clear dirty, zero both recorded times and
stop both timers, keeping the bound function. -/
def Debouncer.Reset (d : Debouncer) : Debouncer :=
  { d with dirty := false, lastCall := 0, lastInvoke := 0,
           maxTimer := false, timer := false }

/-- Event is one serialized interaction with the debouncer: a call to the
debounce entry point (carrying the optional replacement action and the
observed clock), an expiry of the wait timer, an expiry of the max-wait
timer, or a reset. -/
inductive Event where
  | call (f : Option Nat) (now : Int)
  | fireTimer (now : Int)
  | fireMaxTimer (now : Int)
  | reset
deriving Repr, DecidableEq

/-- step runs one event against the state, returning the new state and the
action dispatched by the event, if any. Both timer expiries route to the
same callback, and reset never dispatches. -/
def step (d : Debouncer) : Event → Debouncer × Option Nat
  | .call f now => d.DebounceWith f now
  | .fireTimer now => d.timerCallback now
  | .fireMaxTimer now => d.timerCallback now
  | .reset => (d.Reset, none)

/-- stepD is the state part of step. -/
def stepD (d : Debouncer) (e : Event) : Debouncer := (step d e).1

/-- run folds a sequence of events over a starting state. -/
def run (d : Debouncer) (es : List Event) : Debouncer := es.foldl stepD d

/-- leadingFires is the condition under which invokeLeading invokes:
leading is enabled and exceededWait or exceededMaxWait holds. -/
def leadingFires (d : Debouncer) (now : Int) : Bool :=
  d.leading && (exceededWait d now || exceededMaxWait d now)

/-- dBurst is a concrete mid-burst state of a leading+trailing debouncer
with maxWait 500: the last invocation is 600 in the past, the last call
only 100 in the past at clock 1000. -/
def dBurst : Debouncer :=
  { wait := 200, leading := true, trailing := true, maxWait := 500,
    fn := some 7, dirty := false, lastCall := 900, lastInvoke := 400,
    timer := false, maxTimer := false }

/-- dFresh is a concrete clean trailing-only debouncer with maxWait 500. -/
def dFresh : Debouncer :=
  { wait := 200, leading := false, trailing := true, maxWait := 500,
    fn := some 4, dirty := false, lastCall := 0, lastInvoke := 0,
    timer := false, maxTimer := false }

/-- dLeadOnly is a concrete clean leading-only debouncer that has just
seen a call and invocation at 100. -/
def dLeadOnly : Debouncer :=
  { wait := 200, leading := true, trailing := false, maxWait := 0,
    fn := some 4, dirty := false, lastCall := 100, lastInvoke := 100,
    timer := false, maxTimer := false }

/-- dPending is a concrete dirty state with both timers armed, in a
leading+trailing configuration with maxWait 500. -/
def dPending : Debouncer :=
  { wait := 200, leading := true, trailing := true, maxWait := 500,
    fn := some 3, dirty := true, lastCall := 900, lastInvoke := 400,
    timer := true, maxTimer := true }

/-- dZeroWait is a concrete debouncer built with wait 0 (debouncing
disabled). -/
def dZeroWait : Debouncer :=
  { wait := 0, leading := false, trailing := true, maxWait := 0,
    fn := some 2, dirty := false, lastCall := 0, lastInvoke := 0,
    timer := false, maxTimer := false }

/-- dClock is a concrete idle leading debouncer whose recorded times are at
100, to be observed at the earlier clock 50. -/
def dClock : Debouncer :=
  { wait := 200, leading := true, trailing := true, maxWait := 0,
    fn := some 9, dirty := false, lastCall := 100, lastInvoke := 100,
    timer := false, maxTimer := false }

/-- invoke characterized as a record update: the invocation time advances
exactly when a function is bound, and the bound function is dispatched. -/
theorem invoke_eq (d : Debouncer) (now : Int) :
    d.invoke now =
      ({ d with lastInvoke := if d.fn.isSome then now else d.lastInvoke }, d.fn) := by
  unfold Debouncer.invoke
  by_cases hf : d.fn.isSome
  · simp [hf]
  · rw [Option.not_isSome_iff_eq_none] at hf
    simp [hf]
    rw [← hf]

/-- invokeLeading characterized through the leadingFires condition. -/
theorem invokeLeading_eq (d : Debouncer) (now : Int) :
    d.invokeLeading now =
      if leadingFires d now then ((d.invoke now).1, (d.invoke now).2, true)
      else (d, none, false) := by
  unfold Debouncer.invokeLeading leadingFires
  cases d.leading <;> simp

/-- leadingFires does not depend on the bound function. -/
theorem leadingFires_fn (d : Debouncer) (f : Option Nat) (now : Int) :
    leadingFires { d with fn := f } now = leadingFires d now := rfl

/-- DebounceWith characterized by cases: the immediate path when wait is
nonpositive, the leading-edge path, the trailing path and the
leading-only idle path. -/
theorem debounceWith_eq (d : Debouncer) (f : Option Nat) (now : Int) :
    d.DebounceWith f now =
      (let d0 := storeFn d f
       if d.wait ≤ 0 then
         ({ d0 with lastInvoke := if d0.fn.isSome then now else d0.lastInvoke }, d0.fn)
       else if leadingFires d now then
         ({ d0 with lastInvoke := if d0.fn.isSome then now else d0.lastInvoke,
                    lastCall := now }, d0.fn)
       else if d.trailing then
         ({ d0 with timer := true,
                    maxTimer := if decide (0 < d.maxWait) && !d.dirty then true
                                else d.maxTimer,
                    dirty := true, lastCall := now }, none)
       else ({ d0 with lastCall := now }, none)) := by
  unfold Debouncer.DebounceWith storeFn
  cases f with
  | none =>
    simp only [Option.isSome_none, Bool.false_eq_true, if_false, invokeLeading_eq, invoke_eq]
    by_cases hw : d.wait ≤ 0 <;> by_cases hl : leadingFires d now <;>
      cases ht : d.trailing <;> simp [hw, hl, ht]
  | some a =>
    simp only [Option.isSome_some, if_true, invokeLeading_eq, invoke_eq, leadingFires_fn]
    by_cases hw : d.wait ≤ 0 <;> by_cases hl : leadingFires d now <;>
      cases ht : d.trailing <;> simp [hw, hl, ht]

/-- timerCallback characterized as a record update guarded by dirty. -/
theorem timerCallback_eq (d : Debouncer) (now : Int) :
    d.timerCallback now =
      if d.dirty then
        ({ d with lastInvoke := if d.fn.isSome then now else d.lastInvoke,
                  timer := false, maxTimer := false, dirty := false }, d.fn)
      else (d, none) := by
  unfold Debouncer.timerCallback
  cases hd : d.dirty <;> simp [invoke_eq]

/-- Applying construction options never touches the mutable state or wait. -/
theorem applyOpts_state (opts : List Opt) (d : Debouncer) :
    (opts.foldl applyOpt d).fn = d.fn ∧ (opts.foldl applyOpt d).dirty = d.dirty ∧
    (opts.foldl applyOpt d).lastCall = d.lastCall ∧
    (opts.foldl applyOpt d).lastInvoke = d.lastInvoke ∧
    (opts.foldl applyOpt d).timer = d.timer ∧
    (opts.foldl applyOpt d).maxTimer = d.maxTimer ∧
    (opts.foldl applyOpt d).wait = d.wait := by
  induction opts generalizing d with
  | nil => simp [run]
  | cons o rest ih =>
    simp only [List.foldl_cons]
    have h := ih (applyOpt d o)
    cases o <;> simp_all [applyOpt]

/-- defaultTrailing only touches the trailing flag. -/
theorem defaultTrailing_state (d : Debouncer) :
    (defaultTrailing d).fn = d.fn ∧ (defaultTrailing d).dirty = d.dirty ∧
    (defaultTrailing d).lastCall = d.lastCall ∧
    (defaultTrailing d).lastInvoke = d.lastInvoke ∧
    (defaultTrailing d).timer = d.timer ∧ (defaultTrailing d).maxTimer = d.maxTimer ∧
    (defaultTrailing d).wait = d.wait ∧ (defaultTrailing d).leading = d.leading ∧
    (defaultTrailing d).maxWait = d.maxWait := by
  unfold defaultTrailing
  split <;> simp

/-- disableMaxWait only touches maxWait. -/
theorem disableMaxWait_state (d : Debouncer) :
    (disableMaxWait d).fn = d.fn ∧ (disableMaxWait d).dirty = d.dirty ∧
    (disableMaxWait d).lastCall = d.lastCall ∧
    (disableMaxWait d).lastInvoke = d.lastInvoke ∧
    (disableMaxWait d).timer = d.timer ∧ (disableMaxWait d).maxTimer = d.maxTimer ∧
    (disableMaxWait d).wait = d.wait ∧ (disableMaxWait d).leading = d.leading ∧
    (disableMaxWait d).trailing = d.trailing ∧
    (disableMaxWait d).maxWait = (if d.maxWait ≤ d.wait then 0 else d.maxWait) := by
  unfold disableMaxWait
  split <;> simp

/-- storeFn only touches the bound function. -/
theorem storeFn_state (d : Debouncer) (f : Option Nat) :
    (storeFn d f).dirty = d.dirty ∧ (storeFn d f).lastCall = d.lastCall ∧
    (storeFn d f).lastInvoke = d.lastInvoke ∧ (storeFn d f).timer = d.timer ∧
    (storeFn d f).maxTimer = d.maxTimer ∧ (storeFn d f).wait = d.wait ∧
    (storeFn d f).leading = d.leading ∧ (storeFn d f).trailing = d.trailing ∧
    (storeFn d f).maxWait = d.maxWait ∧
    (storeFn d f).fn = (if f.isSome then f else d.fn) := by
  unfold storeFn
  split <;> simp

/-- A fresh debouncer is clean: not dirty, both timers stopped, both
recorded times zero, the requested wait, and the given function bound. -/
theorem newDebouncer_state (wait : Int) (f : Option Nat) (opts : List Opt) :
    (NewDebouncer wait f opts).dirty = false ∧ (NewDebouncer wait f opts).timer = false ∧
    (NewDebouncer wait f opts).maxTimer = false ∧ (NewDebouncer wait f opts).lastCall = 0 ∧
    (NewDebouncer wait f opts).lastInvoke = 0 ∧ (NewDebouncer wait f opts).fn = f ∧
    (NewDebouncer wait f opts).wait = wait := by
  unfold NewDebouncer
  obtain ⟨h1, h2, h3, h4, h5, h6, h7⟩ := applyOpts_state opts (initD wait)
  obtain ⟨g1, g2, g3, g4, g5, g6, g7⟩ := defaultTrailing_state (opts.foldl applyOpt (initD wait))
  obtain ⟨k1, k2, k3, k4, k5, k6, k7⟩ :=
    disableMaxWait_state (defaultTrailing (opts.foldl applyOpt (initD wait)))
  obtain ⟨m1, m2, m3, m4, m5, m6, m7⟩ :=
    storeFn_state (disableMaxWait (defaultTrailing (opts.foldl applyOpt (initD wait)))) f
  by_cases hf : f.isSome
  · simp_all [initD]
  · simp_all [initD, Option.not_isSome_iff_eq_none.mp hf]

/-- No event changes the configuration fields. -/
theorem config_stepD (d : Debouncer) (e : Event) :
    (stepD d e).wait = d.wait ∧ (stepD d e).leading = d.leading ∧
    (stepD d e).trailing = d.trailing ∧ (stepD d e).maxWait = d.maxWait := by
  cases e with
  | call f now =>
    simp only [stepD, step, debounceWith_eq, storeFn]
    split_ifs <;> simp_all
  | fireTimer now =>
    simp only [stepD, step, timerCallback_eq]
    cases hd : d.dirty <;> simp_all
  | fireMaxTimer now =>
    simp only [stepD, step, timerCallback_eq]
    cases hd : d.dirty <;> simp_all
  | reset => simp [stepD, step, Debouncer.Reset]

/-- One event preserves the invariant that dirty equals the disjunction of
the two armed-timer flags. -/
theorem inv_dirty_stepD (d : Debouncer) (e : Event)
    (h : d.dirty = (d.timer || d.maxTimer)) :
    (stepD d e).dirty = ((stepD d e).timer || (stepD d e).maxTimer) := by
  cases e with
  | call f now =>
    simp only [stepD, step, debounceWith_eq, storeFn]
    split_ifs <;> simp_all
  | fireTimer now =>
    simp only [stepD, step, timerCallback_eq]
    cases hd : d.dirty <;> simp_all
  | fireMaxTimer now =>
    simp only [stepD, step, timerCallback_eq]
    cases hd : d.dirty <;> simp_all
  | reset => simp [stepD, step, Debouncer.Reset]

/-- A run preserves the dirty-iff-armed invariant. -/
theorem inv_dirty_run (d : Debouncer) (es : List Event)
    (h : d.dirty = (d.timer || d.maxTimer)) :
    (run d es).dirty = ((run d es).timer || (run d es).maxTimer) := by
  induction es generalizing d with
  | nil => simpa [run] using h
  | cons e rest ih =>
    have hr : run d (e :: rest) = run (stepD d e) rest := by simp [run]
    rw [hr]
    exact ih _ (inv_dirty_stepD d e h)

/-- With maxWait disabled, no event ever arms the max-wait timer. -/
theorem maxWaitZero_stepD (d : Debouncer) (e : Event)
    (hm : d.maxWait = 0) (h : d.maxTimer = false) :
    (stepD d e).maxTimer = false := by
  cases e with
  | call f now =>
    simp only [stepD, step, debounceWith_eq, storeFn]
    split_ifs <;> simp_all
  | fireTimer now =>
    simp only [stepD, step, timerCallback_eq]
    cases hd : d.dirty <;> simp_all
  | fireMaxTimer now =>
    simp only [stepD, step, timerCallback_eq]
    cases hd : d.dirty <;> simp_all
  | reset => simp [stepD, step, Debouncer.Reset]

/-- With maxWait disabled, the max-wait timer stays disarmed over any run. -/
theorem maxWaitZero_run (d : Debouncer) (es : List Event)
    (hm : d.maxWait = 0) (h : d.maxTimer = false) :
    (run d es).maxTimer = false := by
  induction es generalizing d with
  | nil => simpa [run] using h
  | cons e rest ih =>
    have hr : run d (e :: rest) = run (stepD d e) rest := by simp [run]
    rw [hr]
    exact ih _ ((config_stepD d e).2.2.2.trans hm) (maxWaitZero_stepD d e hm h)

/-- With nonpositive wait, no event sets dirty or arms either timer. -/
theorem waitNonpos_stepD (d : Debouncer) (e : Event) (hw : d.wait ≤ 0)
    (h1 : d.dirty = false) (h2 : d.timer = false) (h3 : d.maxTimer = false) :
    (stepD d e).dirty = false ∧ (stepD d e).timer = false ∧
    (stepD d e).maxTimer = false := by
  cases e with
  | call f now =>
    simp only [stepD, step, debounceWith_eq, storeFn]
    split_ifs <;> simp_all
  | fireTimer now =>
    simp only [stepD, step, timerCallback_eq]
    simp_all
  | fireMaxTimer now =>
    simp only [stepD, step, timerCallback_eq]
    simp_all
  | reset => simp [stepD, step, Debouncer.Reset]

/-- With nonpositive wait, dirty stays false and both timers stay disarmed
over any run. -/
theorem waitNonpos_run (d : Debouncer) (es : List Event) (hw : d.wait ≤ 0)
    (h1 : d.dirty = false) (h2 : d.timer = false) (h3 : d.maxTimer = false) :
    (run d es).dirty = false ∧ (run d es).timer = false ∧
    (run d es).maxTimer = false := by
  induction es generalizing d with
  | nil => simp_all [run]
  | cons e rest ih =>
    have hr : run d (e :: rest) = run (stepD d e) rest := by simp [run]
    rw [hr]
    obtain ⟨k1, k2, k3⟩ := waitNonpos_stepD d e hw h1 h2 h3
    exact ih _ (le_of_eq_of_le (config_stepD d e).1 hw) k1 k2 k3

/-- With trailing disabled, no event sets dirty or arms either timer. -/
theorem trailingOff_stepD (d : Debouncer) (e : Event) (ht : d.trailing = false)
    (h1 : d.dirty = false) (h2 : d.timer = false) (h3 : d.maxTimer = false) :
    (stepD d e).dirty = false ∧ (stepD d e).timer = false ∧
    (stepD d e).maxTimer = false := by
  cases e with
  | call f now =>
    simp only [stepD, step, debounceWith_eq, storeFn]
    split_ifs <;> simp_all
  | fireTimer now =>
    simp only [stepD, step, timerCallback_eq]
    simp_all
  | fireMaxTimer now =>
    simp only [stepD, step, timerCallback_eq]
    simp_all
  | reset => simp [stepD, step, Debouncer.Reset]

/-- With trailing disabled, dirty stays false and both timers stay disarmed
over any run. -/
theorem trailingOff_run (d : Debouncer) (es : List Event) (ht : d.trailing = false)
    (h1 : d.dirty = false) (h2 : d.timer = false) (h3 : d.maxTimer = false) :
    (run d es).dirty = false ∧ (run d es).timer = false ∧
    (run d es).maxTimer = false := by
  induction es generalizing d with
  | nil => simp_all [run]
  | cons e rest ih =>
    have hr : run d (e :: rest) = run (stepD d e) rest := by simp [run]
    rw [hr]
    obtain ⟨k1, k2, k3⟩ := trailingOff_stepD d e ht h1 h2 h3
    exact ih _ ((config_stepD d e).2.2.1.trans ht) k1 k2 k3


/-- Claim C1: for every call to the debounce entry point with positive wait and
leading enabled, when exceededWait or exceededMaxWait holds (the latter
being maxWait positive and now minus lastInvoke at least maxWait) the call
invokes immediately: the bound action is dispatched, lastInvoke advances
exactly when an action is bound, lastCall is recorded, and dirty and both
timers are left untouched by this call. -/
theorem c1_leading_exceeded_invokes (d : Debouncer) (now : Int)
    (hw : 0 < d.wait) (hl : d.leading = true)
    (hx : (exceededWait d now || exceededMaxWait d now) = true) :
    (d.DebounceWith none now).2 = d.fn ∧
    (d.DebounceWith none now).1.lastInvoke =
      (if d.fn.isSome then now else d.lastInvoke) ∧
    (d.DebounceWith none now).1.lastCall = now ∧
    (d.DebounceWith none now).1.dirty = d.dirty ∧
    (d.DebounceWith none now).1.timer = d.timer ∧
    (d.DebounceWith none now).1.maxTimer = d.maxTimer := by
  have hf : leadingFires d now = true := by simp [leadingFires, hl, hx]
  have hw' : ¬ d.wait ≤ 0 := not_le.mpr hw
  simp [debounceWith_eq, storeFn, hf, hw']

/-- Witness for C1 at the state named by the claim: maxWait is positive,
lastInvoke is older than maxWait, lastCall is within wait, so exceededWait
is false yet the leading call invokes immediately. -/
theorem c1_leading_exceeded_invokes_witness :
    exceededWait dBurst 1000 = false ∧ exceededMaxWait dBurst 1000 = true ∧
    (dBurst.DebounceWith none 1000).2 = some 7 :=
  ⟨by decide, by decide,
   (c1_leading_exceeded_invokes dBurst 1000 (by decide) (by decide) (by decide)).1⟩

/-- Claim C2: for every call with positive wait in which the leading edge did not
fire, the call dispatches nothing; when trailing is enabled it rearms the
wait timer, arms the max-wait timer exactly when maxWait is positive and
dirty was false, and sets dirty; when trailing is disabled the call only
stores the function and records the call time, leaving dirty and both
timers as they were, and over any run of a trailing-disabled debouncer
that starts clean, dirty stays false and no timer is ever armed. -/
theorem c2_trailing_arms (d : Debouncer) (f : Option Nat) (now : Int) (es : List Event)
    (hw : 0 < d.wait) (hnl : leadingFires d now = false) :
    (d.DebounceWith f now).2 = none ∧
    (d.trailing = true →
      (d.DebounceWith f now).1 =
        { storeFn d f with timer := true,
                           maxTimer := if decide (0 < d.maxWait) && !d.dirty then true
                                       else d.maxTimer,
                           dirty := true, lastCall := now }) ∧
    (d.trailing = false →
      (d.DebounceWith f now).1 = { storeFn d f with lastCall := now }) ∧
    (d.trailing = false → d.dirty = false → d.timer = false → d.maxTimer = false →
      (run d es).dirty = false ∧ (run d es).timer = false ∧
      (run d es).maxTimer = false) := by
  have hw' : ¬ d.wait ≤ 0 := not_le.mpr hw
  refine ⟨?_, ?_, ?_, fun ht h1 h2 h3 => trailingOff_run d es ht h1 h2 h3⟩
  · by_cases ht : d.trailing = true
    · simp [debounceWith_eq, hw', hnl, ht]
    · simp only [Bool.not_eq_true] at ht
      simp [debounceWith_eq, hw', hnl, ht]
  · intro ht; simp [debounceWith_eq, hw', hnl, ht]
  · intro ht; simp [debounceWith_eq, hw', hnl, ht]

/-- Witness for C2: a non-leading call on a clean trailing debouncer with
maxWait arms both timers and sets dirty; on the leading-only debouncer a
run of further calls and a reset keeps everything clean. -/
theorem c2_trailing_arms_witness :
    (dFresh.DebounceWith (some 5) 100).1 =
      { wait := 200, leading := false, trailing := true, maxWait := 500,
        fn := some 5, dirty := true, lastCall := 100, lastInvoke := 0,
        timer := true, maxTimer := true } ∧
    (run dLeadOnly [Event.call none 150, Event.call none 160, Event.reset]).dirty = false := by
  refine ⟨?_, ?_⟩
  · have h := (c2_trailing_arms dFresh (some 5) 100 [] (by decide) (by decide)).2.1 rfl
    rw [h]; decide
  · exact ((c2_trailing_arms dLeadOnly none 150
      [Event.call none 150, Event.call none 160, Event.reset]
      (by decide) (by decide)).2.2.2 rfl rfl rfl rfl).1

/-- Claim C3: in every state reachable from a freshly constructed debouncer by
any sequence of calls, timer expiries and resets, dirty is true exactly
when at least one of the two timers is armed. -/
theorem c3_dirty_iff_armed (wait : Int) (f : Option Nat) (opts : List Opt)
    (es : List Event) :
    (run (NewDebouncer wait f opts) es).dirty =
      ((run (NewDebouncer wait f opts) es).timer ||
        (run (NewDebouncer wait f opts) es).maxTimer) := by
  obtain ⟨h1, h2, h3, -⟩ := newDebouncer_state wait f opts
  exact inv_dirty_run _ es (by rw [h1, h2, h3]; rfl)

/-- Claim C4: both timer expiries run the same callback; when dirty is false the
callback is a no-op leaving the state unchanged and dispatching nothing;
when dirty is true it dispatches the bound action, records the invocation
time when an action is bound, disarms both timers and clears dirty, after
which a second expiry of the other timer is a no-op. -/
theorem c4_callback_expiry (d : Debouncer) (now now2 : Int) :
    step d (.fireTimer now) = d.timerCallback now ∧
    step d (.fireMaxTimer now) = d.timerCallback now ∧
    (d.dirty = false → d.timerCallback now = (d, none)) ∧
    (d.dirty = true →
      (d.timerCallback now).2 = d.fn ∧
      (d.timerCallback now).1.dirty = false ∧
      (d.timerCallback now).1.timer = false ∧
      (d.timerCallback now).1.maxTimer = false ∧
      (d.timerCallback now).1.lastInvoke =
        (if d.fn.isSome then now else d.lastInvoke) ∧
      (d.timerCallback now).1.timerCallback now2 = ((d.timerCallback now).1, none)) := by
  refine ⟨rfl, rfl, fun hd => ?_, fun hd => ?_⟩
  · simp [timerCallback_eq, hd]
  · simp [timerCallback_eq, hd]

/-- Witness for C4 on the concrete pending state: the first expiry
dispatches action 3 and clears the state, the second expiry is a no-op. -/
theorem c4_callback_expiry_witness :
    (dPending.timerCallback 1100).2 = some 3 ∧
    (dPending.timerCallback 1100).1.dirty = false ∧
    (dPending.timerCallback 1100).1.timerCallback 1300 =
      ((dPending.timerCallback 1100).1, none) := by
  have h := (c4_callback_expiry dPending 1100 1300).2.2.2 rfl
  exact ⟨h.1, h.2.1, h.2.2.2.2.2⟩

/-- Claim C5: reset dispatches nothing, disarms both timers, clears dirty and
zeroes both recorded times while keeping the bound function; a later timer
expiry after a reset is a no-op, and resetting a freshly constructed
debouncer leaves it exactly as constructed. -/
theorem c5_reset_clears (wait : Int) (f : Option Nat) (opts : List Opt)
    (d : Debouncer) (now : Int) :
    step d .reset = (d.Reset, none) ∧
    d.Reset = { d with dirty := false, lastCall := 0, lastInvoke := 0,
                       timer := false, maxTimer := false } ∧
    d.Reset.timerCallback now = (d.Reset, none) ∧
    (NewDebouncer wait f opts).Reset = NewDebouncer wait f opts := by
  refine ⟨rfl, rfl, by simp [timerCallback_eq, Debouncer.Reset], ?_⟩
  obtain ⟨h1, h2, h3, h4, h5, h6, h7⟩ := newDebouncer_state wait f opts
  cases hX : NewDebouncer wait f opts
  rw [hX] at h1 h2 h3 h4 h5
  simp_all [Debouncer.Reset]

/-- Claim C6: in the mutable variant, every call supplying an action overwrites
the stored action and every call supplying none leaves it unchanged; in a
trailing burst of three calls supplying actions a1, a2, a3 none of the
calls dispatches, and the expiry that ends the burst dispatches exactly
the last supplied action a3. -/
theorem c6_last_action_wins (d : Debouncer) (a1 a2 a3 : Nat) (n1 n2 n3 nf : Int)
    (hl : d.leading = false) (ht : d.trailing = true) (hw : 0 < d.wait) :
    ((d.DebounceWith (some a1) n1).1.fn = some a1) ∧
    ((d.DebounceWith none n1).1.fn = d.fn) ∧
    ((d.DebounceWith (some a1) n1).2 = none) ∧
    (((d.DebounceWith (some a1) n1).1.DebounceWith (some a2) n2).2 = none) ∧
    ((((d.DebounceWith (some a1) n1).1.DebounceWith (some a2) n2).1.DebounceWith
        (some a3) n3).2 = none) ∧
    (((((d.DebounceWith (some a1) n1).1.DebounceWith (some a2) n2).1.DebounceWith
        (some a3) n3).1.timerCallback nf).2 = some a3) := by
  have hw' : ¬ d.wait ≤ 0 := not_le.mpr hw
  obtain ⟨w, l, t, m, fn0, dt, lc, li, tm, mt⟩ := d
  simp only at hl ht hw' ⊢
  subst hl ht
  simp [Debouncer.DebounceWith, Debouncer.invokeLeading, Debouncer.invoke,
        storeFn, Debouncer.timerCallback, hw']

/-- Witness for C6 on the fresh trailing debouncer: three calls store 1, 2,
3 in turn, dispatch nothing, and the closing expiry dispatches 3. -/
theorem c6_last_action_wins_witness :
    ((((dFresh.DebounceWith (some 1) 100).1.DebounceWith (some 2) 150).1.DebounceWith
        (some 3) 200).1.timerCallback 400).2 = some 3 :=
  (c6_last_action_wins dFresh 1 2 3 100 150 200 400 rfl rfl (by decide)).2.2.2.2.2

/-- Claim C7: for every call with leading enabled and positive wait where the
observed clock precedes the recorded last call or last invocation, the
leading edge fires: the call dispatches the bound action immediately and
records the invocation when an action is bound; the anomaly is never an
error and never suppresses the leading edge. -/
theorem c7_clock_anomaly_invokes (d : Debouncer) (now : Int)
    (hl : d.leading = true) (hw : 0 < d.wait)
    (hneg : now - d.lastCall < 0 ∨ now - d.lastInvoke < 0) :
    (d.invokeLeading now).2.2 = true ∧
    (d.invokeLeading now).2.1 = d.fn ∧
    (d.DebounceWith none now).2 = d.fn ∧
    (d.DebounceWith none now).1.lastInvoke =
      (if d.fn.isSome then now else d.lastInvoke) := by
  have hx : exceededWait d now = true := by
    rcases hneg with h | h <;> simp [exceededWait, h]
  have hf : leadingFires d now = true := by simp [leadingFires, hl, hx]
  have hw' : ¬ d.wait ≤ 0 := not_le.mpr hw
  refine ⟨?_, ?_, ?_, ?_⟩ <;>
    simp [invokeLeading_eq, invoke_eq, debounceWith_eq, storeFn, hf, hw']

/-- Witness for C7 at clock 50 against records at 100: the elapsed
durations are negative, yet the call invokes action 9. -/
theorem c7_clock_anomaly_invokes_witness :
    ((50 : Int) - dClock.lastCall < 0 ∨ (50 : Int) - dClock.lastInvoke < 0) ∧
    (dClock.DebounceWith none 50).2 = some 9 :=
  ⟨Or.inl (by decide),
   (c7_clock_anomaly_invokes dClock 50 rfl (by decide) (Or.inl (by decide))).2.2.1⟩

/-- Claim C8: whenever the options leave maxWait at most wait (equality
included), construction disables max-wait: the configured maxWait is 0 and
the max-wait timer is never armed over any subsequent run. -/
theorem c8_maxwait_disabled (wait : Int) (f : Option Nat) (opts : List Opt)
    (es : List Event)
    (hm : (opts.foldl applyOpt (initD wait)).maxWait ≤ wait) :
    (NewDebouncer wait f opts).maxWait = 0 ∧
    (run (NewDebouncer wait f opts) es).maxTimer = false := by
  obtain ⟨a1, a2, a3, a4, a5, a6, a7⟩ := applyOpts_state opts (initD wait)
  obtain ⟨t1, t2, t3, t4, t5, t6, t7, t8, t9⟩ :=
    defaultTrailing_state (opts.foldl applyOpt (initD wait))
  obtain ⟨m1, m2, m3, m4, m5, m6, m7, m8, m9, m10⟩ :=
    disableMaxWait_state (defaultTrailing (opts.foldl applyOpt (initD wait)))
  obtain ⟨s1, s2, s3, s4, s5, s6, s7, s8, s9, s10⟩ :=
    storeFn_state (disableMaxWait (defaultTrailing (opts.foldl applyOpt (initD wait)))) f
  have hXw : (opts.foldl applyOpt (initD wait)).wait = wait := by
    rw [a7]; rfl
  have h1 : (NewDebouncer wait f opts).maxWait = 0 := by
    unfold NewDebouncer
    rw [s9, m10, t9, t7, hXw]
    simp [hm]
  exact ⟨h1, maxWaitZero_run _ es h1 (newDebouncer_state wait f opts).2.2.1⟩

/-- Witness for C8: constructing with wait 200 and the WithMaxWait 100
option yields maxWait 0, and a short run never arms the max-wait timer. -/
theorem c8_maxwait_disabled_witness :
    (NewDebouncer 200 (some 1) [Opt.withMaxWait 100]).maxWait = 0 ∧
    (run (NewDebouncer 200 (some 1) [Opt.withMaxWait 100])
      [Event.call none 100, Event.call none 150, Event.fireTimer 350]).maxTimer = false :=
  c8_maxwait_disabled 200 (some 1) [Opt.withMaxWait 100]
    [Event.call none 100, Event.call none 150, Event.fireTimer 350] (by decide)

/-- Claim C9: for every debouncer whose wait is nonpositive, every call invokes
the (possibly just stored) action immediately and changes nothing but the
stored function and the invocation time: dirty, both timers, and lastCall
are untouched; and from construction with nonpositive wait, dirty stays
false and no timer is ever armed over any run. -/
theorem c9_wait_nonpos_immediate (d : Debouncer) (f : Option Nat) (now : Int)
    (waitA : Int) (g : Option Nat) (opts : List Opt) (es : List Event)
    (hw : d.wait ≤ 0) (hwA : waitA ≤ 0) :
    (d.DebounceWith f now).2 = (storeFn d f).fn ∧
    (d.DebounceWith f now).1 =
      { storeFn d f with
          lastInvoke := if (storeFn d f).fn.isSome then now
                        else (storeFn d f).lastInvoke } ∧
    (run (NewDebouncer waitA g opts) es).dirty = false ∧
    (run (NewDebouncer waitA g opts) es).timer = false ∧
    (run (NewDebouncer waitA g opts) es).maxTimer = false := by
  obtain ⟨n1, n2, n3, n4, n5, n6, n7⟩ := newDebouncer_state waitA g opts
  have hrun := waitNonpos_run (NewDebouncer waitA g opts) es (by rw [n7]; exact hwA) n1 n2 n3
  refine ⟨?_, ?_, hrun.1, hrun.2.1, hrun.2.2⟩ <;> simp [debounceWith_eq, hw]

/-- Witness for C9: on the wait-0 debouncer a call dispatches the stored
action 8 at once, and a run from a freshly constructed wait-0 debouncer
stays clean. -/
theorem c9_wait_nonpos_immediate_witness :
    (dZeroWait.DebounceWith (some 8) 100).2 = some 8 ∧
    (run (NewDebouncer 0 (some 8) []) [Event.call none 50, Event.call (some 9) 60]).dirty
      = false := by
  have h := c9_wait_nonpos_immediate dZeroWait (some 8) 100 0 (some 8) []
    [Event.call none 50, Event.call (some 9) 60] (by decide) (by decide)
  refine ⟨?_, h.2.2.1⟩
  rw [h.1]; decide

/-- Claim C10: for every call with positive wait whose leading edge fires while
dirty is already true, the immediate invocation dispatches the bound
action and leaves dirty and both armed timers unchanged, so a later
expiry still dispatches the pending trailing or max-wait invocation in
addition. -/
theorem c10_leading_keeps_pending (d : Debouncer) (f : Option Nat) (now now2 : Int)
    (hw : 0 < d.wait) (hd : d.dirty = true) (hfire : leadingFires d now = true) :
    (d.DebounceWith f now).2 = (storeFn d f).fn ∧
    (d.DebounceWith f now).1.dirty = true ∧
    (d.DebounceWith f now).1.timer = d.timer ∧
    (d.DebounceWith f now).1.maxTimer = d.maxTimer ∧
    ((d.DebounceWith f now).1.timerCallback now2).2 = (storeFn d f).fn ∧
    ((d.DebounceWith f now).1.timerCallback now2).1.dirty = false := by
  have hw' : ¬ d.wait ≤ 0 := not_le.mpr hw
  obtain ⟨s1, s2, s3, s4, s5, s6, s7, s8, s9, s10⟩ := storeFn_state d f
  simp [debounceWith_eq, timerCallback_eq, hfire, hw', hd, s1, s4, s5]

/-- Witness for C10 on the pending state with both timers armed: the
leading hit via exceededMaxWait dispatches action 3, keeps dirty and both
timers, and the later expiry dispatches action 3 again. -/
theorem c10_leading_keeps_pending_witness :
    leadingFires dPending 1000 = true ∧
    (dPending.DebounceWith none 1000).2 = some 3 ∧
    (dPending.DebounceWith none 1000).1.dirty = true ∧
    ((dPending.DebounceWith none 1000).1.timerCallback 1100).2 = some 3 := by
  have h := c10_leading_keeps_pending dPending none 1000 1100 (by decide) rfl (by decide)
  exact ⟨by decide, h.1, h.2.1, h.2.2.2.2.1⟩
